import Mathlib

/-!
Shallow embedding of `src/vnt/src/util/dns_query.rs`.

The module resolves a hostname-or-literal string into socket addresses via
UDP DNS exchanges (A, AAAA, TXT) against a list of name servers, and picks a
reachable address with a connect probe.  External effects (the results of
`SocketAddr::from_str`, the per-server exchange outcomes, socket bind and
connect outcomes) are passed in explicitly as oracle parameters; the control
flow, accumulation and error folding of the Rust functions are transcribed
faithfully.  `anyhow::Error` values are modelled as the `String` produced by
their `Display` formatting, since the code only ever rewraps them through
`format!` patterns.
-/

set_option autoImplicit false

namespace DnsQuery

/-- Opaque model of `std::net::Ipv4Addr` (its 32-bit value). -/
structure Ipv4Addr where
  bits : Nat
deriving DecidableEq, Repr

/-- Opaque model of `std::net::Ipv6Addr` (its 128-bit value). -/
structure Ipv6Addr where
  bits : Nat
deriving DecidableEq, Repr

/-- Model of `std::net::IpAddr`: either family. -/
inductive IpAddr where
  | v4 (ip : Ipv4Addr)
  | v6 (ip : Ipv6Addr)
deriving DecidableEq, Repr

/-- Model of `std::net::SocketAddr`: an IP address plus a port. -/
structure SocketAddr where
  ip : IpAddr
  port : Nat
deriving DecidableEq, Repr

/-- Model of `SocketAddr::is_ipv4`. -/
def SocketAddr.is_ipv4 : SocketAddr → Bool
  | ⟨.v4 _, _⟩ => true
  | ⟨.v6 _, _⟩ => false

/-- Model of `SocketAddr::is_ipv6`. -/
def SocketAddr.is_ipv6 : SocketAddr → Bool
  | ⟨.v4 _, _⟩ => false
  | ⟨.v6 _, _⟩ => true

/-! ### PacketCodec: response data model and validation (`query`, lines 140-158) -/

/-- Model of `dns_parser::ResponseCode`. -/
inductive ResponseCode where
  | NoError
  | FormatError
  | ServerFailure
  | NameError
  | NotImplemented
  | Refused
  | Reserved (code : Nat)
deriving DecidableEq, Repr

/-- The decode outcome of one TXT character-string: `std::str::from_utf8`
followed by `SocketAddr::from_str` (both external library calls, embedded by
their result on the record's bytes). -/
inductive TxtDecode where
  | notUtf8
  | utf8NotAddr
  | addr (a : SocketAddr)
deriving DecidableEq, Repr

/-- Model of `dns_parser::RData` restricted to the variants the code
inspects; every other variant is `Other`. -/
inductive RData where
  | A (ip : Ipv4Addr)
  | AAAA (ip : Ipv6Addr)
  | TXT (items : List TxtDecode)
  | Other
deriving DecidableEq, Repr

/-- Recogniser for `RData::A`. -/
def RData.isA : RData → Bool
  | .A _ => true
  | _ => false

/-- Recogniser for `RData::AAAA`. -/
def RData.isAAAA : RData → Bool
  | .AAAA _ => true
  | _ => false

/-- Model of one `dns_parser` answer record: only its `data` is read. -/
structure ResourceRecord where
  data : RData
deriving DecidableEq, Repr

/-- Model of `dns_parser::Header`: only `response_code` is read. -/
structure DnsHeader where
  response_code : ResponseCode
deriving DecidableEq, Repr

/-- Model of a parsed `dns_parser::Packet`. -/
structure DnsPacket where
  header : DnsHeader
  answers : List ResourceRecord
deriving DecidableEq, Repr

/-- The validation tail of `query` (lines 142-158): a parsed packet with a
non-success response code or zero answers is rejected. -/
def validateResponse (pkt : DnsPacket) : Except String DnsPacket :=
  if pkt.header.response_code ≠ ResponseCode.NoError then
    .error "response_code"
  else if pkt.answers.length = 0 then
    .error "No records received"
  else
    .ok pkt

/-- Model of `query` after the receive loop: `Packet::parse` outcome (given as the
argument) followed by validation. -/
def queryPacket (parsed : Except String DnsPacket) : Except String DnsPacket :=
  match parsed with
  | .error e => .error e
  | .ok pkt => validateResponse pkt

/-! ### Exchange: the send/recv retry loop of `query` (lines 120-138) -/

/-- Outcome of one `udp.recv` call: success, a timeout-class error
(`TimedOut` or `WouldBlock`), or any other I/O error. -/
inductive RecvOutcome where
  | success (len : Nat)
  | timeout
  | ioError
deriving DecidableEq, Repr

/-- Result of the exchange loop, carrying how many sends were issued. -/
inductive ExchangeResult where
  | received (len : Nat) (sends : Nat)
  | timeoutFail (sends : Nat)
  | ioFail (sends : Nat)
deriving DecidableEq, Repr

/-- Number of sends recorded in an `ExchangeResult`. -/
def ExchangeResult.sends : ExchangeResult → Nat
  | .received _ s => s
  | .timeoutFail s => s
  | .ioFail s => s

/-- The `loop` of `query`: `f i` is the outcome of the receive following the
`(i+1)`-th send, `count` is the timeout counter (starting at 0).  Each
iteration sends once; a timeout-class error increments `count` and retries
while `count < 3`; any other I/O error propagates at once. -/
def queryLoop (f : Nat → RecvOutcome) (i count : Nat) : ExchangeResult :=
  match f i with
  | .success len => .received len (i + 1)
  | .timeout =>
    if h : count + 1 < 3 then queryLoop f (i + 1) (count + 1)
    else .timeoutFail (i + 1)
  | .ioError => .ioFail (i + 1)
termination_by 3 - count
decreasing_by omega

/-- The exchange as entered from `query`: first send, timeout counter 0. -/
def queryExchange (f : Nat → RecvOutcome) : ExchangeResult :=
  queryLoop f 0 0

/-- Model of `bind_udp`'s observable configuration: the local bind family and
the read timeout it sets. -/
structure UdpConfig where
  localIsV4 : Bool
  readTimeoutMs : Option Nat
deriving DecidableEq, Repr

/-- Model of `bind_udp` (lines 180-188): binds a socket of the server's family and
sets an 800 ms read timeout. -/
def bind_udp (serverIsV4 : Bool) : UdpConfig :=
  { localIsV4 := serverIsV4, readTimeoutMs := some 800 }

/-! ### Per-record-type result collection (`a_dns`, `aaaa_dns`, `txt_dns`) -/

/-- The collection loop of `a_dns` (lines 195-200): keep the payloads of A
answers, skip everything else. -/
def collectA (answers : List ResourceRecord) : List Ipv4Addr :=
  answers.filterMap fun r =>
    match r.data with
    | .A ip => some ip
    | _ => none

/-- The collection loop of `aaaa_dns` (lines 209-214). -/
def collectAAAA (answers : List ResourceRecord) : List Ipv6Addr :=
  answers.filterMap fun r =>
    match r.data with
    | .AAAA ip => some ip
    | _ => none

/-- Model of `a_dns` from the point the exchange has produced a parse outcome:
validate, then collect A payloads. -/
def a_dns (parsed : Except String DnsPacket) : Except String (List Ipv4Addr) :=
  (queryPacket parsed).map fun pkt => collectA pkt.answers

/-- Model of `aaaa_dns` from the point the exchange has produced a parse outcome. -/
def aaaa_dns (parsed : Except String DnsPacket) : Except String (List Ipv6Addr) :=
  (queryPacket parsed).map fun pkt => collectAAAA pkt.answers

/-- The item loop of `txt_dns` over one TXT record's character-strings
(lines 169-174): each must decode as UTF-8 and then as a socket address, and
the first failure aborts the whole call via `?`. -/
def txtItems : List TxtDecode → Except String (List SocketAddr)
  | [] => .ok []
  | .notUtf8 :: _ => .error "record type txt is not string"
  | .utf8NotAddr :: _ => .error "record type txt is not SocketAddr"
  | .addr a :: rest => (txtItems rest).map fun l => a :: l

/-- The answer loop of `txt_dns` (lines 167-176): non-TXT answers are
skipped; TXT answers contribute their decoded addresses in order. -/
def txtAnswers : List ResourceRecord → Except String (List SocketAddr)
  | [] => .ok []
  | r :: rest =>
    match r.data with
    | .TXT items =>
      match txtItems items with
      | .error e => .error e
      | .ok l => (txtAnswers rest).map fun l2 => l ++ l2
    | _ => txtAnswers rest

/-- Model of `txt_dns` from the point the exchange has produced a parse outcome. -/
def txt_dns (parsed : Except String DnsPacket) : Except String (List SocketAddr) :=
  match queryPacket parsed with
  | .error e => .error e
  | .ok pkt => txtAnswers pkt.answers

/-! ### Resolver: `dns_query_all` (lines 35-105) -/

/-- The record type of one launched exchange, for the query trace. -/
inductive QType where
  | qA
  | qAAAA
  | qTXT
deriving DecidableEq, Repr

/-- One launched exchange: which name server, which record type. -/
structure QueryEvent where
  server : String
  qtype : QType
deriving DecidableEq, Repr

/-- The environment of one `dns_query_all` call: the outcome each spawned
`a_dns`/`aaaa_dns` thread (keyed by host and name server) and each
`txt_dns` call would produce.  Errors are their `Display` strings. -/
structure ResolveEnv where
  aRes : String → String → Except String (List Ipv4Addr)
  aaaaRes : String → String → Except String (List Ipv6Addr)
  txtRes : String → String → Except String (List SocketAddr)

/-- The per-server loop of `dns_query_all` (lines 45-97) with its running
`err : Option<anyhow::Error>` accumulator, returning the result together
with the trace of exchanges launched.  `txtQuery` is
`domain.to_lowercase().strip_prefix("txt:")`; `hostPort` is the combined
outcome of `domain.rfind(":")` and the port parse (both computed from the
immutable `domain`, hence loop-invariant). -/
def dnsLoop (env : ResolveEnv) (txtQuery : Option String)
    (hostPort : Except String (String × Nat)) :
    List String → Option String → Except String (List SocketAddr) × List QueryEvent
  | [], err =>
    (match err with
     | some e => .error e
     | none => .error "DNS query failed", [])
  | ns :: rest, err =>
    match txtQuery with
    | some d => (env.txtRes d ns, [⟨ns, .qTXT⟩])
    | none =>
      match hostPort with
      | .error e => (.error e, [])
      | .ok (host, port) =>
        let ev : List QueryEvent := [⟨ns, .qA⟩, ⟨ns, .qAAAA⟩]
        let ar := match env.aRes host ns with
          | .ok rs => (rs.map fun ip => SocketAddr.mk (.v4 ip) port, err)
          | .error e => (([] : List SocketAddr), some e)
        match env.aaaaRes host ns with
        | .ok rs =>
          let addr := ar.1 ++ rs.map fun ip => SocketAddr.mk (.v6 ip) port
          if addr.isEmpty then
            let p := dnsLoop env txtQuery hostPort rest ar.2
            (p.1, ev ++ p.2)
          else
            (.ok addr, ev)
        | .error e =>
          if ar.1.isEmpty then
            let err2 := match ar.2 with
              | some e0 => some (e0 ++ "," ++ e)
              | none => some e
            let p := dnsLoop env txtQuery hostPort rest err2
            (p.1, ev ++ p.2)
          else
            (.ok ar.1, ev)

/-- Model of `dns_query_all` (lines 35-105).  `literal` is the outcome of
`SocketAddr::from_str(domain)`; a parsed literal returns at once with no
exchange launched.  Otherwise an empty server list fails immediately, else
the per-server loop runs with an empty error accumulator. -/
def dns_query_all (env : ResolveEnv) (literal : Option SocketAddr)
    (txtQuery : Option String) (hostPort : Except String (String × Nat))
    (name_servers : List String) :
    Except String (List SocketAddr) × List QueryEvent :=
  match literal with
  | some addr => (.ok [addr], [])
  | none =>
    if name_servers.isEmpty then (.error "name server is none", [])
    else dnsLoop env txtQuery hostPort name_servers none

/-- The IPv4-derived candidates a given server contributes (A payloads with
the parsed port attached); empty when the A exchange failed. -/
def serverA (env : ResolveEnv) (host ns : String) (port : Nat) : List SocketAddr :=
  match env.aRes host ns with
  | .ok rs => rs.map fun ip => SocketAddr.mk (.v4 ip) port
  | .error _ => []

/-- The IPv6-derived candidates a given server contributes. -/
def serverAAAA (env : ResolveEnv) (host ns : String) (port : Nat) : List SocketAddr :=
  match env.aaaaRes host ns with
  | .ok rs => rs.map fun ip => SocketAddr.mk (.v6 ip) port
  | .error _ => []

/-! ### AddressChooser: `address_choose` (lines 11-33) -/

/-- The probe environment: whether binding an ephemeral socket of each
family succeeds, and whether `udp.connect` to a given address succeeds. -/
structure ProbeEnv where
  bindV4 : Except String Unit
  bindV6 : Except String Unit
  connect : SocketAddr → Bool

/-- The `check_addr` closure (lines 14-28): on a non-empty list, bind a
socket of the first element's family, then return the first address the
connect probe accepts; otherwise fail. -/
def check_addr (env : ProbeEnv) (addrs : List SocketAddr) : Except String SocketAddr :=
  match addrs with
  | [] => .error "Unable to connect to address"
  | a :: _ =>
    match (if a.is_ipv6 then env.bindV6 else env.bindV4) with
    | .error e => .error e
    | .ok _ =>
      match addrs.find? env.connect with
      | some addr => .ok addr
      | none => .error "Unable to connect to address"

/-- Model of `address_choose` (lines 11-33): filter the candidates into the IPv4 and
IPv6 sublists (order preserved), probe the IPv6 list first, fall back to the
IPv4 list. -/
def address_choose (env : ProbeEnv) (addrs : List SocketAddr) : Except String SocketAddr :=
  let v4 := addrs.filter SocketAddr.is_ipv4
  let v6 := addrs.filter SocketAddr.is_ipv6
  match check_addr env v6 with
  | .ok addr => .ok addr
  | .error _ => check_addr env v4

/-! ### Helper predicates and lemmas -/

/-- Holds of an answer record that contributes no TXT character-string:
either its data is not TXT, or the TXT record holds zero strings. -/
def noTxtPayload (r : ResourceRecord) : Bool :=
  match r.data with
  | .TXT items => items.isEmpty
  | _ => true

lemma txtAnswers_eq_ok_nil (answers : List ResourceRecord)
    (h : ∀ r ∈ answers, noTxtPayload r = true) :
    txtAnswers answers = .ok [] := by
  induction answers with
  | nil => rfl
  | cons r rest ih =>
    have hr : noTxtPayload r = true := h r (List.mem_cons_self r rest)
    have hrest : txtAnswers rest = .ok [] :=
      ih fun x hx => h x (List.mem_cons_of_mem r hx)
    unfold txtAnswers
    unfold noTxtPayload at hr
    cases hd : r.data with
    | TXT items =>
      rw [hd] at hr
      have : items = [] := by
        cases items with
        | nil => rfl
        | cons a t => simp [List.isEmpty] at hr
      subst this
      simp [txtItems, hrest, Except.map]
    | A ip => exact hrest
    | AAAA ip => exact hrest
    | Other => exact hrest

lemma collectA_eq_nil (answers : List ResourceRecord)
    (h : ∀ r ∈ answers, r.data.isA = false) :
    collectA answers = [] := by
  unfold collectA
  rw [List.filterMap_eq_nil_iff]
  intro r hr
  have hA := h r hr
  cases hd : r.data with
  | A ip => rw [hd] at hA; simp [RData.isA] at hA
  | AAAA ip => simp [hd]
  | TXT items => simp [hd]
  | Other => simp [hd]

lemma collectAAAA_eq_nil (answers : List ResourceRecord)
    (h : ∀ r ∈ answers, r.data.isAAAA = false) :
    collectAAAA answers = [] := by
  unfold collectAAAA
  rw [List.filterMap_eq_nil_iff]
  intro r hr
  have hA := h r hr
  cases hd : r.data with
  | AAAA ip => rw [hd] at hA; simp [RData.isAAAA] at hA
  | A ip => simp [hd]
  | TXT items => simp [hd]
  | Other => simp [hd]

/-! ### Claims -/

/-- Claim C4: the receive timeout set by `bind_udp` is 800 ms; an exchange
issues at most 3 sends; three consecutive timeout-class receive errors make
the exchange fail after exactly 3 sends; any other I/O receive error aborts
the exchange immediately, at whatever attempt it occurs, with no retry. -/
theorem claim_C4 :
    (∀ b, (bind_udp b).readTimeoutMs = some 800)
    ∧ (∀ f, (queryExchange f).sends ≤ 3)
    ∧ (∀ f, f 0 = .timeout → f 1 = .timeout → f 2 = .timeout →
        queryExchange f = .timeoutFail 3)
    ∧ (∀ f i count, f i = .ioError → queryLoop f i count = .ioFail (i + 1)) := by
  refine ⟨fun _ => rfl, ?_, ?_, ?_⟩
  · intro f
    unfold queryExchange
    rw [queryLoop]
    cases h0 : f 0 <;> simp [ExchangeResult.sends]
    rw [queryLoop]
    cases h1 : f 1 <;> simp [ExchangeResult.sends]
    rw [queryLoop]
    cases h2 : f 2 <;> simp [ExchangeResult.sends]
  · intro f h0 h1 h2
    simp [queryExchange, queryLoop, h0, h1, h2]
  · intro f i count h
    rw [queryLoop, h]

/-- Witness for C4 at concrete receive traces: all timeouts gives a failure
after 3 sends, and an immediate other I/O error aborts after 1 send. -/
theorem claim_C4_witness :
    queryExchange (fun _ => .timeout) = .timeoutFail 3
    ∧ queryLoop (fun _ => .ioError) 0 0 = .ioFail 1 :=
  ⟨claim_C4.2.2.1 (fun _ => .timeout) rfl rfl rfl,
   claim_C4.2.2.2 (fun _ => .ioError) 0 0 rfl⟩

/-- Claim C5: a non-success response code or a zero-length answer section
makes `validateResponse` return an error, and any success it returns has a
success code and a non-empty answer section, so neither bad case is ever
surfaced as a successful empty result. -/
theorem claim_C5 (pkt : DnsPacket) :
    ((pkt.header.response_code ≠ ResponseCode.NoError ∨ pkt.answers.length = 0) →
        ∃ e, validateResponse pkt = .error e)
    ∧ (∀ pkt2, validateResponse pkt = .ok pkt2 →
        pkt2 = pkt ∧ pkt.header.response_code = ResponseCode.NoError
          ∧ pkt.answers ≠ []) := by
  constructor
  · intro h
    unfold validateResponse
    rcases h with h | h
    · exact ⟨"response_code", by rw [if_pos h]⟩
    · by_cases hrc : pkt.header.response_code ≠ ResponseCode.NoError
      · exact ⟨"response_code", by rw [if_pos hrc]⟩
      · exact ⟨"No records received", by rw [if_neg hrc, if_pos h]⟩
  · intro pkt2 h
    unfold validateResponse at h
    by_cases hrc : pkt.header.response_code ≠ ResponseCode.NoError
    · rw [if_pos hrc] at h; exact absurd h (by simp)
    · rw [if_neg hrc] at h
      by_cases hz : pkt.answers.length = 0
      · rw [if_pos hz] at h; exact absurd h (by simp)
      · rw [if_neg hz] at h
        refine ⟨by injection h with h; exact h.symm, by tauto, ?_⟩
        intro hnil
        exact hz (by rw [hnil]; rfl)

/-- Witness for C5: a server-failure response with an empty answer section
is rejected with an error. -/
theorem claim_C5_witness :
    ∃ e, validateResponse ⟨⟨ResponseCode.ServerFailure⟩, []⟩ = .error e :=
  (claim_C5 ⟨⟨ResponseCode.ServerFailure⟩, []⟩).1 (Or.inl (by decide))

/-- Claim C8: an input that parses as a literal socket address resolves to
exactly that single address, and the query trace is empty: no name server is
contacted and no exchange is launched. -/
theorem claim_C8 (env : ResolveEnv) (addr : SocketAddr) (txtQuery : Option String)
    (hostPort : Except String (String × Nat)) (name_servers : List String) :
    dns_query_all env (some addr) txtQuery hostPort name_servers
      = (.ok [addr], []) :=
  rfl

/-- Claim C10: a response with a success code and a non-empty answer section
none of whose records carries an A (resp. AAAA) payload makes `a_dns`
(resp. `aaaa_dns`) return an empty success, so the empty-success outcome is
reachable at the per-family interface even though zero-answer responses are
rejected. -/
theorem claim_C10 (pkt : DnsPacket)
    (hrc : pkt.header.response_code = ResponseCode.NoError)
    (hne : pkt.answers ≠ []) :
    ((∀ r ∈ pkt.answers, r.data.isA = false) → a_dns (.ok pkt) = .ok [])
    ∧ ((∀ r ∈ pkt.answers, r.data.isAAAA = false) → aaaa_dns (.ok pkt) = .ok []) := by
  have hval : validateResponse pkt = .ok pkt := by
    unfold validateResponse
    rw [if_neg (by simp [hrc]), if_neg (by simpa using hne)]
  have hqp : queryPacket (.ok pkt) = validateResponse pkt := rfl
  constructor
  · intro h
    unfold a_dns
    rw [hqp, hval]
    simp [Except.map, collectA_eq_nil pkt.answers h]
  · intro h
    unfold aaaa_dns
    rw [hqp, hval]
    simp [Except.map, collectAAAA_eq_nil pkt.answers h]

/-- Witness for C10: a success response whose single answer is neither A nor
AAAA yields an empty success from both per-family lookups. -/
theorem claim_C10_witness :
    a_dns (.ok ⟨⟨ResponseCode.NoError⟩, [⟨RData.Other⟩]⟩) = .ok []
    ∧ aaaa_dns (.ok ⟨⟨ResponseCode.NoError⟩, [⟨RData.Other⟩]⟩) = .ok [] :=
  ⟨(claim_C10 ⟨⟨ResponseCode.NoError⟩, [⟨RData.Other⟩]⟩ rfl (by decide)).1 (by decide),
   (claim_C10 ⟨⟨ResponseCode.NoError⟩, [⟨RData.Other⟩]⟩ rfl (by decide)).2 (by decide)⟩

/-- Counterexample to claim C3: a successful TXT exchange whose single
answer is a non-TXT record passes validation (non-empty answers, success
code), yet `txt_dns` returns `Ok []` — an empty success, not a failure. -/
theorem claim_C3_counterexample :
    queryPacket (.ok ⟨⟨ResponseCode.NoError⟩, [⟨RData.Other⟩]⟩)
        = .ok ⟨⟨ResponseCode.NoError⟩, [⟨RData.Other⟩]⟩
    ∧ txt_dns (.ok ⟨⟨ResponseCode.NoError⟩, [⟨RData.Other⟩]⟩) = .ok [] :=
  ⟨rfl, rfl⟩

/-- Amended claim C3: when the underlying exchange succeeds but no answer
contributes a TXT character-string, the returned address list is empty and
is reported as an empty success (`Ok []`), not as a failure. -/
theorem claim_C3_amended (pkt : DnsPacket)
    (hrc : pkt.header.response_code = ResponseCode.NoError)
    (hne : pkt.answers ≠ [])
    (h : ∀ r ∈ pkt.answers, noTxtPayload r = true) :
    txt_dns (.ok pkt) = .ok [] := by
  have hval : validateResponse pkt = .ok pkt := by
    unfold validateResponse
    rw [if_neg (by simp [hrc]), if_neg (by simpa using hne)]
  have hqp : queryPacket (.ok pkt) = validateResponse pkt := rfl
  unfold txt_dns
  rw [hqp, hval]
  exact txtAnswers_eq_ok_nil pkt.answers h

/-- Witness for the amended C3: a success response whose single answer is a
TXT record with zero character-strings yields `Ok []`. -/
theorem claim_C3_witness :
    txt_dns (.ok ⟨⟨ResponseCode.NoError⟩, [⟨RData.TXT []⟩]⟩) = .ok [] :=
  claim_C3_amended ⟨⟨ResponseCode.NoError⟩, [⟨RData.TXT []⟩]⟩ rfl (by decide) (by decide)

lemma serverA_all_ipv4 (env : ResolveEnv) (host ns : String) (port : Nat) :
    ∀ x ∈ serverA env host ns port, x.is_ipv4 = true := by
  intro x hx
  unfold serverA at hx
  cases hA : env.aRes host ns with
  | ok rs =>
    rw [hA] at hx
    obtain ⟨ip, _, rfl⟩ := List.mem_map.mp hx
    rfl
  | error e => rw [hA] at hx; simp at hx

lemma serverAAAA_all_ipv6 (env : ResolveEnv) (host ns : String) (port : Nat) :
    ∀ x ∈ serverAAAA env host ns port, x.is_ipv6 = true := by
  intro x hx
  unfold serverAAAA at hx
  cases hB : env.aaaaRes host ns with
  | ok rs =>
    rw [hB] at hx
    obtain ⟨ip, _, rfl⟩ := List.mem_map.mp hx
    rfl
  | error e => rw [hB] at hx; simp at hx

lemma dnsLoop_ok_source (env : ResolveEnv) (host : String) (port : Nat)
    (servers : List String) (err : Option String) (addrs : List SocketAddr)
    (tr : List QueryEvent)
    (h : dnsLoop env none (.ok (host, port)) servers err = (.ok addrs, tr)) :
    ∃ ns ∈ servers,
      addrs = serverA env host ns port ++ serverAAAA env host ns port := by
  induction servers generalizing err tr with
  | nil => cases err <;> simp [dnsLoop] at h
  | cons ns rest ih =>
    simp only [dnsLoop] at h
    cases hA : env.aRes host ns with
    | ok rsA =>
      cases hB : env.aaaaRes host ns with
      | ok rsB =>
        rw [hA, hB] at h
        simp only [] at h
        split at h
        · have h1 := congrArg Prod.fst h
          simp only [] at h1
          have hp : dnsLoop env none (.ok (host, port)) rest err
              = (.ok addrs, (dnsLoop env none (.ok (host, port)) rest err).2) := by
            rw [← h1]
          obtain ⟨ns2, hm, he⟩ := ih err _ hp
          exact ⟨ns2, List.mem_cons_of_mem ns hm, he⟩
        · simp only [Prod.mk.injEq, Except.ok.injEq] at h
          refine ⟨ns, List.mem_cons_self ns rest, ?_⟩
          rw [← h.1]
          simp [serverA, serverAAAA, hA, hB]
      | error e =>
        rw [hA, hB] at h
        simp only [] at h
        split at h
        · generalize hg : (match err with
            | some e0 => some (e0 ++ "," ++ e)
            | none => some e) = err2 at h
          have h1 := congrArg Prod.fst h
          simp only [] at h1
          have hp : dnsLoop env none (.ok (host, port)) rest err2
              = (.ok addrs, (dnsLoop env none (.ok (host, port)) rest err2).2) := by
            rw [← h1]
          obtain ⟨ns2, hm, he⟩ := ih _ _ hp
          exact ⟨ns2, List.mem_cons_of_mem ns hm, he⟩
        · simp only [Prod.mk.injEq, Except.ok.injEq] at h
          refine ⟨ns, List.mem_cons_self ns rest, ?_⟩
          rw [← h.1]
          simp [serverA, serverAAAA, hA, hB]
    | error eA =>
      cases hB : env.aaaaRes host ns with
      | ok rsB =>
        rw [hA, hB] at h
        simp only [] at h
        split at h
        · have h1 := congrArg Prod.fst h
          simp only [] at h1
          have hp : dnsLoop env none (.ok (host, port)) rest (some eA)
              = (.ok addrs, (dnsLoop env none (.ok (host, port)) rest (some eA)).2) := by
            rw [← h1]
          obtain ⟨ns2, hm, he⟩ := ih _ _ hp
          exact ⟨ns2, List.mem_cons_of_mem ns hm, he⟩
        · simp only [Prod.mk.injEq, Except.ok.injEq] at h
          refine ⟨ns, List.mem_cons_self ns rest, ?_⟩
          rw [← h.1]
          simp [serverA, serverAAAA, hA, hB]
      | error eB =>
        rw [hA, hB] at h
        simp only [] at h
        split at h
        · have h1 := congrArg Prod.fst h
          simp only [] at h1
          have hp : dnsLoop env none (.ok (host, port)) rest (some (eA ++ "," ++ eB))
              = (.ok addrs,
                 (dnsLoop env none (.ok (host, port)) rest (some (eA ++ "," ++ eB))).2) := by
            rw [← h1]
          obtain ⟨ns2, hm, he⟩ := ih _ _ hp
          exact ⟨ns2, List.mem_cons_of_mem ns hm, he⟩
        · rename_i hE
          exact absurd rfl hE

/-- The environment used to exhibit the output order of a winning server:
one name server, one A result and one AAAA result. -/
def envC1 : ResolveEnv :=
  ⟨fun _ _ => .ok [⟨4⟩], fun _ _ => .ok [⟨6⟩], fun _ _ => .error "t"⟩

/-- Counterexample to claim C1: with one server answering both families, the
returned list places the A-derived (IPv4) address first and the
AAAA-derived (IPv6) address second — not the IPv6-before-IPv4 order the
claim states. -/
theorem claim_C1_counterexample :
    (dns_query_all envC1 none none (.ok ("h", 9)) ["s"]).1
        = .ok [⟨.v4 ⟨4⟩, 9⟩, ⟨.v6 ⟨6⟩, 9⟩]
    ∧ SocketAddr.is_ipv4 ⟨.v4 ⟨4⟩, 9⟩ = true
    ∧ SocketAddr.is_ipv6 ⟨.v6 ⟨6⟩, 9⟩ = true
    ∧ ([⟨.v4 ⟨4⟩, 9⟩, ⟨.v6 ⟨6⟩, 9⟩] : List SocketAddr)
        ≠ [⟨.v6 ⟨6⟩, 9⟩, ⟨.v4 ⟨4⟩, 9⟩] :=
  ⟨rfl, rfl, rfl, by decide⟩

/-- Amended claim C1: every successful host:port resolution returns the
candidate list of a single winning server, ordered with that server's
A-derived (IPv4) addresses preceding its AAAA-derived (IPv6) addresses. -/
theorem claim_C1_amended (env : ResolveEnv) (host : String) (port : Nat)
    (servers : List String) (err : Option String) (addrs : List SocketAddr)
    (tr : List QueryEvent)
    (h : dnsLoop env none (.ok (host, port)) servers err = (.ok addrs, tr)) :
    ∃ ns ∈ servers,
      addrs = serverA env host ns port ++ serverAAAA env host ns port
      ∧ (∀ x ∈ serverA env host ns port, x.is_ipv4 = true)
      ∧ (∀ x ∈ serverAAAA env host ns port, x.is_ipv6 = true) := by
  obtain ⟨ns, hm, he⟩ := dnsLoop_ok_source env host port servers err addrs tr h
  exact ⟨ns, hm, he, serverA_all_ipv4 env host ns port,
    serverAAAA_all_ipv6 env host ns port⟩

/-- Witness for the amended C1 at the concrete one-server environment. -/
theorem claim_C1_witness :
    ∃ ns ∈ (["s"] : List String),
      ([⟨.v4 ⟨4⟩, 9⟩, ⟨.v6 ⟨6⟩, 9⟩] : List SocketAddr)
          = serverA envC1 "h" ns 9 ++ serverAAAA envC1 "h" ns 9
      ∧ (∀ x ∈ serverA envC1 "h" ns 9, x.is_ipv4 = true)
      ∧ (∀ x ∈ serverAAAA envC1 "h" ns 9, x.is_ipv6 = true) :=
  claim_C1_amended envC1 "h" 9 ["s"] none [⟨.v4 ⟨4⟩, 9⟩, ⟨.v6 ⟨6⟩, 9⟩]
    [⟨"s", .qA⟩, ⟨"s", .qAAAA⟩] rfl

/-- The environment used against claim C2: two name servers, all four family
exchanges fail, server 1 errors carry the digit 1, server 2 errors the
digit 2. -/
def envC2 : ResolveEnv :=
  ⟨fun _ ns => .error (if ns = "s1" then "eA1" else "eA2"),
   fun _ ns => .error (if ns = "s1" then "eB1" else "eB2"),
   fun _ _ => .error "t"⟩

/-- Counterexample to claim C2: when both servers fail on both families, the
final failure is exactly the concatenation of the *second* server's two
errors; the first server's context (the only strings containing the
character 1) is dropped and does not appear in the final error at all. -/
theorem claim_C2_counterexample :
    (dns_query_all envC2 none none (.ok ("h", 1)) ["s1", "s2"]).1 = .error "eA2,eB2"
    ∧ '1' ∈ "eA1".toList
    ∧ '1' ∈ "eB1".toList
    ∧ '1' ∉ "eA2,eB2".toList :=
  ⟨rfl, by decide, by decide, by decide⟩

/-- Amended claim C2: within one server the A and AAAA errors are
concatenated with each other, but that concatenation replaces the whole
previously accumulated context (the incoming accumulator is discarded), so
the final failure reflects only the last fold state, not the context of all
attempts. -/
theorem claim_C2_amended (env : ResolveEnv) (host : String) (port : Nat)
    (ns : String) (rest : List String) (err : Option String) (eA eB : String)
    (hA : env.aRes host ns = .error eA) (hB : env.aaaaRes host ns = .error eB) :
    dnsLoop env none (.ok (host, port)) (ns :: rest) err
      = ((dnsLoop env none (.ok (host, port)) rest (some (eA ++ "," ++ eB))).1,
         [⟨ns, .qA⟩, ⟨ns, .qAAAA⟩]
           ++ (dnsLoop env none (.ok (host, port)) rest (some (eA ++ "," ++ eB))).2) := by
  simp [dnsLoop, hA, hB]

/-- Witness for the amended C2: a concrete both-families-fail server step
replaces the pre-existing accumulator ("old" is gone from the outcome). -/
theorem claim_C2_witness :
    dnsLoop ⟨fun _ _ => .error "x", fun _ _ => .error "y", fun _ _ => .error "t"⟩
        none (.ok ("h", 1)) ["s"] (some "old")
      = (.error "x,y", [⟨"s", .qA⟩, ⟨"s", .qAAAA⟩]) :=
  (claim_C2_amended ⟨fun _ _ => .error "x", fun _ _ => .error "y", fun _ _ => .error "t"⟩
    "h" 1 "s" [] (some "old") "x" "y" rfl rfl).trans rfl

/-- Claim C6: as soon as one server's merged candidate list is non-empty,
`dnsLoop` returns exactly that list, and the query trace shows only that
server's two exchanges — no later server is queried and no results from two
different servers are ever merged. -/
theorem claim_C6 (env : ResolveEnv) (host : String) (port : Nat) (ns : String)
    (rest : List String) (err : Option String)
    (h : serverA env host ns port ++ serverAAAA env host ns port ≠ []) :
    dnsLoop env none (.ok (host, port)) (ns :: rest) err
      = (.ok (serverA env host ns port ++ serverAAAA env host ns port),
         [⟨ns, .qA⟩, ⟨ns, .qAAAA⟩]) := by
  cases hA : env.aRes host ns with
  | ok rsA =>
    cases hB : env.aaaaRes host ns with
    | ok rsB =>
      simp only [serverA, serverAAAA, hA, hB] at h ⊢
      have hE : ((rsA.map fun ip => SocketAddr.mk (.v4 ip) port)
          ++ rsB.map fun ip => SocketAddr.mk (.v6 ip) port).isEmpty = false := by
        rw [List.isEmpty_eq_false]; exact h
      simp [dnsLoop, hA, hB, hE]
    | error e =>
      simp only [serverA, serverAAAA, hA, hB, List.append_nil] at h ⊢
      have hE : (rsA.map fun ip => SocketAddr.mk (.v4 ip) port).isEmpty = false := by
        rw [List.isEmpty_eq_false]; exact h
      simp [dnsLoop, hA, hB, hE]
  | error eA =>
    cases hB : env.aaaaRes host ns with
    | ok rsB =>
      simp only [serverA, serverAAAA, hA, hB, List.nil_append] at h ⊢
      have hE : (rsB.map fun ip => SocketAddr.mk (.v6 ip) port).isEmpty = false := by
        rw [List.isEmpty_eq_false]; exact h
      simp [dnsLoop, hA, hB, hE]
    | error eB =>
      simp only [serverA, serverAAAA, hA, hB] at h
      simp at h

/-- Witness for C6: the first server answers A only (AAAA fails); its
single candidate is returned and the second server never appears in the
trace. -/
theorem claim_C6_witness :
    dnsLoop ⟨fun _ _ => .ok [⟨4⟩], fun _ _ => .error "e6", fun _ _ => .error "t"⟩
        none (.ok ("h", 1)) ["s", "t2"] none
      = (.ok [⟨.v4 ⟨4⟩, 1⟩], [⟨"s", .qA⟩, ⟨"s", .qAAAA⟩]) :=
  (claim_C6 ⟨fun _ _ => .ok [⟨4⟩], fun _ _ => .error "e6", fun _ _ => .error "t"⟩
    "h" 1 "s" ["t2"] none (by decide)).trans rfl

/-- The error-accumulator fold of `dns_query_all` when the AAAA exchange
fails with nothing collected: concatenate onto the existing context, or
start a new one. -/
def foldErr : Option String → String → Option String
  | some e0, e => some (e0 ++ "," ++ e)
  | none, e => some e

/-- Claim C7: when exactly one family exchange fails at a server, the loop
continues to the next server precisely when the succeeding family produced
zero addresses, and otherwise returns the non-empty side's addresses (with
the appropriate accumulator update in the continue cases). -/
theorem claim_C7 (env : ResolveEnv) (host : String) (port : Nat) (ns : String)
    (rest : List String) (err : Option String) :
    (∀ e rs, env.aRes host ns = .error e → env.aaaaRes host ns = .ok rs →
      dnsLoop env none (.ok (host, port)) (ns :: rest) err
        = if rs.isEmpty then
            ((dnsLoop env none (.ok (host, port)) rest (some e)).1,
             [⟨ns, .qA⟩, ⟨ns, .qAAAA⟩]
               ++ (dnsLoop env none (.ok (host, port)) rest (some e)).2)
          else
            (.ok (rs.map fun ip => SocketAddr.mk (.v6 ip) port),
             [⟨ns, .qA⟩, ⟨ns, .qAAAA⟩]))
    ∧ (∀ rs e, env.aRes host ns = .ok rs → env.aaaaRes host ns = .error e →
      dnsLoop env none (.ok (host, port)) (ns :: rest) err
        = if rs.isEmpty then
            ((dnsLoop env none (.ok (host, port)) rest (foldErr err e)).1,
             [⟨ns, .qA⟩, ⟨ns, .qAAAA⟩]
               ++ (dnsLoop env none (.ok (host, port)) rest (foldErr err e)).2)
          else
            (.ok (rs.map fun ip => SocketAddr.mk (.v4 ip) port),
             [⟨ns, .qA⟩, ⟨ns, .qAAAA⟩])) := by
  constructor
  · intro e rs hA hB
    cases rs with
    | nil => simp [dnsLoop, hA, hB]
    | cons r t => simp [dnsLoop, hA, hB]
  · intro rs e hA hB
    cases rs with
    | nil =>
      cases err with
      | none => simp [dnsLoop, hA, hB, foldErr]
      | some e0 => simp [dnsLoop, hA, hB, foldErr]
    | cons r t => simp [dnsLoop, hA, hB]

/-- Witness for C7: A fails, AAAA succeeds with one address; the non-empty
side is returned and the second server is not reached. -/
theorem claim_C7_witness :
    dnsLoop ⟨fun _ _ => .error "x", fun _ _ => .ok [⟨6⟩], fun _ _ => .error "t"⟩
        none (.ok ("h", 1)) ["s", "t2"] none
      = (.ok [⟨.v6 ⟨6⟩, 1⟩], [⟨"s", .qA⟩, ⟨"s", .qAAAA⟩]) :=
  ((claim_C7 ⟨fun _ _ => .error "x", fun _ _ => .ok [⟨6⟩], fun _ _ => .error "t"⟩
    "h" 1 "s" ["t2"] none).1 "x" [⟨6⟩] rfl rfl).trans rfl

lemma is_ipv6_eq_false (a : SocketAddr) (h : a.is_ipv4 = true) : a.is_ipv6 = false := by
  obtain ⟨ip, p⟩ := a
  cases ip with
  | v4 x => rfl
  | v6 x => simp [SocketAddr.is_ipv4] at h

lemma check_addr_v6 (env : ProbeEnv) (l : List SocketAddr)
    (h6 : env.bindV6 = .ok ()) (hl : ∀ a ∈ l, a.is_ipv6 = true) :
    check_addr env l
      = match l.find? env.connect with
        | some a => .ok a
        | none => .error "Unable to connect to address" := by
  cases l with
  | nil => rfl
  | cons a t =>
    have ha : a.is_ipv6 = true := hl a (List.mem_cons_self a t)
    simp [check_addr, ha, h6]

lemma check_addr_v4 (env : ProbeEnv) (l : List SocketAddr)
    (h4 : env.bindV4 = .ok ()) (hl : ∀ a ∈ l, a.is_ipv4 = true) :
    check_addr env l
      = match l.find? env.connect with
        | some a => .ok a
        | none => .error "Unable to connect to address" := by
  cases l with
  | nil => rfl
  | cons a t =>
    have ha : a.is_ipv6 = false := is_ipv6_eq_false a (hl a (List.mem_cons_self a t))
    simp [check_addr, ha, h4]

/-- Claim C9: with both binds available, the chooser partitions the
candidates into the order-preserving IPv6 and IPv4 sublists, probes the IPv6
sublist first and returns its first connectable element; only when none
connects is the IPv4 sublist probed the same way, and the call fails when
neither sublist yields a success. -/
theorem claim_C9 (env : ProbeEnv) (addrs : List SocketAddr)
    (h6 : env.bindV6 = .ok ()) (h4 : env.bindV4 = .ok ()) :
    address_choose env addrs
      = match (addrs.filter SocketAddr.is_ipv6).find? env.connect with
        | some a => .ok a
        | none =>
          match (addrs.filter SocketAddr.is_ipv4).find? env.connect with
          | some a => .ok a
          | none => .error "Unable to connect to address" := by
  have m6 : ∀ a ∈ addrs.filter SocketAddr.is_ipv6, a.is_ipv6 = true :=
    fun a ha => (List.mem_filter.mp ha).2
  have m4 : ∀ a ∈ addrs.filter SocketAddr.is_ipv4, a.is_ipv4 = true :=
    fun a ha => (List.mem_filter.mp ha).2
  simp only [address_choose, check_addr_v6 env _ h6 m6, check_addr_v4 env _ h4 m4]
  cases (addrs.filter SocketAddr.is_ipv6).find? env.connect with
  | some a => rfl
  | none => rfl

/-- Witness for C9 at the spec's example: among [v4a, v6a, v4b, v6b] with
only v4b connectable, the chooser returns v4b. -/
theorem claim_C9_witness :
    address_choose ⟨.ok (), .ok (), fun a => a = ⟨.v4 ⟨42⟩, 2⟩⟩
        [⟨.v4 ⟨41⟩, 1⟩, ⟨.v6 ⟨61⟩, 1⟩, ⟨.v4 ⟨42⟩, 2⟩, ⟨.v6 ⟨62⟩, 2⟩]
      = .ok ⟨.v4 ⟨42⟩, 2⟩ :=
  (claim_C9 ⟨.ok (), .ok (), fun a => a = ⟨.v4 ⟨42⟩, 2⟩⟩
    [⟨.v4 ⟨41⟩, 1⟩, ⟨.v6 ⟨61⟩, 1⟩, ⟨.v4 ⟨42⟩, 2⟩, ⟨.v6 ⟨62⟩, 2⟩] rfl rfl).trans rfl

end DnsQuery
